import Mathlib

/-!
Verification of the cllm-mcp daemon and client against its specification.

The definitions below are shallow embeddings of the Python source:
`mcp_daemon.py` (the daemon registry, request dispatch and connection
handling), `cllm_mcp/client.py` (the MCP stdio client and server-id
synthesis) and `cllm_mcp/daemon_utils.py` (daemon availability probing
and mode selection).  External effects (a child process raising, a
socket timing out) are passed in as explicit outcome values, so every
definition is an executable function of its inputs.
-/

set_option maxRecDepth 10000

/-- A single-quote character as a string (Python messages quote names with it). -/
def pyq : String := String.singleton (Char.ofNat 39)

/-- Association-list lookup with string keys; mirrors Python `dict` lookup
(`k in d`, `d[k]`, `d.get(k)`). -/
def alist_lookup {α : Type} (k : String) : List (String × α) → Option α
  | [] => none
  | p :: rest => if p.1 = k then some p.2 else alist_lookup k rest

/-- Association-list key removal; mirrors Python `del d[k]` (keys are unique
in a `dict`, removing every pair with the key is the same operation). -/
def alist_erase {α : Type} (k : String) : List (String × α) → List (String × α)
  | [] => []
  | p :: rest => if p.1 = k then alist_erase k rest else p :: alist_erase k rest

/-- Association-list insert-or-update; mirrors Python `d[k] = v`. -/
def alist_upsert {α : Type} (k : String) (v : α) : List (String × α) → List (String × α)
  | [] => [(k, v)]
  | p :: rest => if p.1 = k then (k, v) :: rest else p :: alist_upsert k v rest

/-- Set insertion on a duplicate-free list; mirrors Python `set.add`. -/
def set_add (x : String) (l : List String) : List String :=
  if x ∈ l then l else l ++ [x]

/-!  ## Daemon registry state (`MCPDaemon.__init__`, mcp_daemon.py:298-327)

`servers` maps a server id to the command string the cached `MCPClient` was
constructed from; `auto_started_servers` and `server_start_times` are the
auxiliary structures added for health monitoring (ADR-0005). -/

structure DaemonState where
  servers : List (String × String)
  auto_started_servers : List String
  server_start_times : List (String × Nat)
deriving DecidableEq

/-- A response dictionary as built by the registry methods: each field is
present (`some`) exactly when the Python dict literal carries the key. -/
structure DResponse where
  success : Option Bool := none
  result : Option String := none
  error : Option String := none
  retry : Option Bool := none
  message : Option String := none
deriving DecidableEq

/-- The failure modes of `MCPClient.call_tool` (cllm_mcp/client.py:113-170):
the response carries `error`, stdout EOF, unparsable stdout line, or the
process was never started.  These are the exceptions the daemon catches. -/
inductive ToolCallFail where
  | errResponse (m : String)
  | noResponse (stderr : String)
  | invalidJson (line err : String)
  | notStarted
deriving DecidableEq

/-- `str(e)` of the exception each failure mode raises in
`MCPClient.call_tool` / `_read_message` / `_send_message`. -/
def ToolCallFail.msg : ToolCallFail → String
  | .errResponse m => "Error calling tool: " ++ m
  | .noResponse stderr => "No response from server. Stderr: " ++ stderr
  | .invalidJson line err => "Invalid JSON response: " ++ line ++ ". Error: " ++ err
  | .notStarted => "Server process not started"

/-- Outcome of one delegated MCP exchange against the stored client. -/
inductive ToolCallOutcome where
  | ok (result : String)
  | fail (f : ToolCallFail)
deriving DecidableEq

/-- The `notRunning` error message (mcp_daemon.py:360). -/
def not_running_msg (server : String) : String :=
  "Server " ++ pyq ++ server ++ pyq ++ " not running. Start it first."

/-- `MCPDaemon.call_tool` (mcp_daemon.py:356-372).  If the id is absent the
state is untouched and only an `error` key is returned.  If the delegated
exchange raises, the entry is deleted from `servers` (the auxiliary
structures are not touched by this method) and
`{"success": False, "error": str(e), "retry": True}` is returned. -/
def call_tool (st : DaemonState) (server : String) (outcome : ToolCallOutcome) :
    DaemonState × DResponse :=
  match alist_lookup server st.servers with
  | none => (st, { error := some (not_running_msg server) })
  | some _ =>
    match outcome with
    | .ok r => (st, { success := some true, result := some r })
    | .fail f =>
      ({ st with servers := alist_erase server st.servers },
       { success := some false, error := some f.msg, retry := some true })

/-- Outcome of constructing an `MCPClient` and running its handshake
(`client.start()`), as observed by the daemon: success, or an exception
whose `str` is the carried message. -/
inductive StartOutcome where
  | ok
  | fail (msg : String)
deriving DecidableEq

/-- `MCPDaemon.start_server` (mcp_daemon.py:329-354).  Already-present ids
short-circuit to a success response; a handshake failure leaves the state
untouched; on success the id is inserted and, iff `auto_start`, recorded in
`auto_started_servers` with a `server_start_times` stamp (`now`). -/
def start_server (st : DaemonState) (name command : String) (outcome : StartOutcome)
    (auto_start : Bool) (now : Nat) : DaemonState × DResponse :=
  match alist_lookup name st.servers with
  | some _ => (st, { success := some true, message := some "Server already running" })
  | none =>
    match outcome with
    | .fail e => (st, { success := some false, error := some e })
    | .ok =>
      let st1 : DaemonState := { st with servers := st.servers ++ [(name, command)] }
      let st2 : DaemonState :=
        if auto_start then
          { st1 with
            auto_started_servers := set_add name st1.auto_started_servers,
            server_start_times := alist_upsert name now st1.server_start_times }
        else st1
      (st2, { success := some true,
              message := some ("Server " ++ pyq ++ name ++ pyq ++ " started") })

/-- Outcome of `client.stop()` as observed by `stop_server`. -/
inductive StopOutcome where
  | ok
  | fail (msg : String)
deriving DecidableEq

/-- `MCPDaemon.stop_server` (mcp_daemon.py:421-432).  Absent ids yield a
success response with a "not running" message.  Otherwise `client.stop()`
runs; if it raises, the entry is NOT deleted and an error is returned; if it
returns, the entry is deleted.  The auxiliary structures are not touched.
The third component records whether client termination was invoked. -/
def stop_server (st : DaemonState) (name : String) (outcome : StopOutcome) :
    DaemonState × DResponse × Bool :=
  match alist_lookup name st.servers with
  | none =>
    (st, { success := some true,
           message := some ("Server " ++ pyq ++ name ++ pyq ++ " not running") }, false)
  | some _ =>
    match outcome with
    | .ok =>
      ({ st with servers := alist_erase name st.servers },
       { success := some true,
         message := some ("Server " ++ pyq ++ name ++ pyq ++ " stopped") }, true)
    | .fail e => (st, { success := some false, error := some e }, true)

/-!  ## Initializer (`initialize_servers_async`, mcp_daemon.py:100-239) -/

/-- One configured server as consumed by the initializer: its name, the
`autoStart` flag (default true) and the `optional` flag (default false). -/
structure ServerCfg where
  name : String
  autoStart : Bool
  optional : Bool
deriving DecidableEq

/-- `InitializationResult` (mcp_daemon.py:67-88).  `details` keeps, per
server, the name, success flag and optional error string. -/
structure InitializationResult where
  total : Nat
  successful : Nat
  failed : Nat
  optional_failures : Nat
  details : List (String × Bool × Option String)
deriving DecidableEq

/-- `servers_config.get(name, {}).get("optional", False)`
(mcp_daemon.py:202). -/
def cfg_optional (cfg : List ServerCfg) (n : String) : Bool :=
  match cfg.find? (fun s => s.name = n) with
  | some s => s.optional
  | none => false

/-- The auto-start selection (mcp_daemon.py:123-127). -/
def servers_to_start (cfg : List ServerCfg) : List ServerCfg :=
  cfg.filter (·.autoStart)

/-- The per-server record appended to `results` by
`_start_server_with_timeout` (mcp_daemon.py:242-292): name, success flag,
optional error text. -/
def init_result_of (outcome : String → StartOutcome) (s : ServerCfg) :
    String × Bool × Option String :=
  match outcome s.name with
  | .ok => (s.name, true, none)
  | .fail e => (s.name, false, some e)

/-- The `results` list (one record per auto-start server, in
configuration order). -/
def init_results (cfg : List ServerCfg) (outcome : String → StartOutcome) :
    List (String × Bool × Option String) :=
  (servers_to_start cfg).map (init_result_of outcome)

/-- The `failed_servers` list (mcp_daemon.py:199). -/
def init_failed (cfg : List ServerCfg) (outcome : String → StartOutcome) :
    List (String × Bool × Option String) :=
  (init_results cfg outcome).filter (fun r => !r.2.1)

/-- The `required_failures` name list (mcp_daemon.py:201-204). -/
def init_required (cfg : List ServerCfg) (outcome : String → StartOutcome) :
    List String :=
  ((init_failed cfg outcome).filter (fun r => !cfg_optional cfg r.1)).map (·.1)

/-- `initialize_servers_async` (mcp_daemon.py:100-239), with the per-server
start outcome supplied by `outcome` (a timeout is a `fail` with its timeout
message, exactly as `_start_server_with_timeout` reports it).  A raised
`RuntimeError` (the `onInitFailure == "fail"` abort) is the `.error` case. -/
def init_servers (cfg : List ServerCfg) (on_failure : String) (no_auto_init : Bool)
    (outcome : String → StartOutcome) : Except String InitializationResult :=
  if no_auto_init then .ok ⟨0, 0, 0, 0, []⟩
  else if servers_to_start cfg = [] then .ok ⟨0, 0, 0, 0, []⟩
  else if init_required cfg outcome ≠ [] ∧ on_failure = "fail" then
    .error ("Failed to start required servers: " ++
      String.intercalate ", " (init_required cfg outcome))
  else
    .ok ⟨(servers_to_start cfg).length,
         ((init_results cfg outcome).filter (fun r => r.2.1)).length,
         (init_failed cfg outcome).length,
         (init_failed cfg outcome).length - (init_required cfg outcome).length,
         init_results cfg outcome⟩

/-- Concrete configuration of spec scenario 5: three auto-start servers,
the middle one optional. -/
def cfgEx : List ServerCfg :=
  [⟨"alpha", true, false⟩, ⟨"beta", true, true⟩, ⟨"gamma", true, false⟩]

/-- Concrete start outcomes of spec scenario 5: only `beta` fails. -/
def ocEx : String → StartOutcome :=
  fun n => if n = "beta" then .fail "boom" else .ok

/-- The result record scenario 5 produces. -/
def resEx : InitializationResult :=
  ⟨3, 2, 1, 1,
   [("alpha", true, none), ("beta", false, some "boom"), ("gamma", true, none)]⟩

/-!  ## Availability probe and mode selection (cllm_mcp/daemon_utils.py) -/

/-- What `sock.recv(4096)` yields during the probe: a timeout, or the raw
received bytes (as a string; `""` is an empty read). -/
inductive RecvOutcome where
  | timeout
  | data (d : String)
deriving DecidableEq

/-- The observable environment of one availability probe. -/
structure ProbeEnv where
  socketExists : Bool
  connectOk : Bool
  recv : RecvOutcome
deriving DecidableEq

/-- `is_daemon_available` (cllm_mcp/daemon_utils.py:14-75).  `jsonOk d` is
the oracle for `json.loads(d.decode().strip())` succeeding.  A missing
socket file returns immediately; every connect/send failure, a receive
timeout, an empty read (the fall-through `return None`, falsy) and a JSON
decode failure all yield `false`; only a non-empty response that parses
yields `true`. -/
def is_daemon_available (jsonOk : String → Bool) (env : ProbeEnv) : Bool :=
  if !env.socketExists then false
  else if !env.connectOk then false
  else
    match env.recv with
    | .timeout => false
    | .data d => if d ≠ "" && jsonOk d then true else false

/-- `should_use_daemon` (cllm_mcp/daemon_utils.py:78-112). -/
def should_use_daemon (jsonOk : String → Bool) (no_daemon : Bool) (env : ProbeEnv) :
    Bool :=
  if no_daemon then false
  else is_daemon_available jsonOk env

/-!  ## Client termination (`MCPClient.stop`, cllm_mcp/client.py:87-94)

The body is modelled as the sequence of OS actions it performs plus the
exception it raises, as a function of whether the child exits within the
5-second grace period of `wait(timeout=5)`. -/

inductive StopAction where
  | closeStdin
  | closeStdout
  | closeStderr
  | terminate
  | waitChild
  | killChild
deriving DecidableEq

/-- `MCPClient.stop`: when a process exists, close the three pipes, send the
terminate signal, then `wait(timeout=5)`.  If the child is still alive when
the grace period expires, `wait` raises `TimeoutExpired` (returned as
`some`); there is no further action in the source. -/
def MCPClient_stop (processStarted : Bool) (exitsWithinGrace : Bool) :
    List StopAction × Option String :=
  if processStarted then
    ([.closeStdin, .closeStdout, .closeStderr, .terminate, .waitChild],
     if exitsWithinGrace then none else some "TimeoutExpired")
  else ([], none)

/-!  ## JSON values, request dispatch and connection handling -/

inductive Json where
  | null
  | bool (b : Bool)
  | num (n : Int)
  | str (s : String)
  | arr (elems : List Json)
  | obj (fields : List (String × Json))

/-- Python `data.get(k)` on the parsed request (only objects have `get`). -/
def jget (j : Json) (k : String) : Option Json :=
  match j with
  | .obj fs => alist_lookup k fs
  | _ => none

/-- Python `value == "s"` where `value` is an arbitrary JSON value:
true exactly for the equal string. -/
def optIsStr (o : Option Json) (s : String) : Bool :=
  match o with
  | some (.str t) => t = s
  | _ => false

mutual
/-- Python `repr` of a JSON-shaped value, as used inside str() of
containers. -/
def pyRepr : Json → String
  | .null => "None"
  | .bool true => "True"
  | .bool false => "False"
  | .num n => toString n
  | .str s => pyq ++ s ++ pyq
  | .arr xs => "[" ++ pyReprList xs ++ "]"
  | .obj fs => "\x7b" ++ pyReprFields fs ++ "\x7d"

def pyReprList : List Json → String
  | [] => ""
  | [x] => pyRepr x
  | x :: y :: xs => pyRepr x ++ ", " ++ pyReprList (y :: xs)

def pyReprFields : List (String × Json) → String
  | [] => ""
  | [(k, v)] => pyq ++ k ++ pyq ++ ": " ++ pyRepr v
  | (k, v) :: f :: fs => pyq ++ k ++ pyq ++ ": " ++ pyRepr v ++ ", " ++ pyReprFields (f :: fs)
end

/-- Python `str` of a JSON-shaped value (as interpolated by f-strings):
like `repr` except that a string renders without quotes. -/
def pyStrJ : Json → String
  | .str s => s
  | j => pyRepr j

/-- Python `str` applied to `data.get("command")` (absent key gives
`None`). -/
def pyStrOpt : Option Json → String
  | none => "None"
  | some j => pyStrJ j

/-- `str(KeyError(k))` is the repr of the key. -/
def key_error_msg (k : String) : String := pyq ++ k ++ pyq

/-- Python type name of a JSON-shaped value, for the AttributeError text. -/
def pyTypeName : Json → String
  | .null => "NoneType"
  | .bool _ => "bool"
  | .num _ => "int"
  | .str _ => "str"
  | .arr _ => "list"
  | .obj _ => "dict"

/-- `str(AttributeError(...))` raised by `data.get` on a non-dict. -/
def attr_error_msg (j : Json) : String :=
  pyq ++ pyTypeName j ++ pyq ++ " object has no attribute " ++ pyq ++ "get" ++ pyq

/-- The behaviour of the registry operations as seen by the dispatcher:
each returns the field list of a response dict, or raises (`.error` with
`str(e)`).  The registry methods themselves never raise for string-keyed
requests; the oracle keeps the dispatcher model total over arbitrary
registry behaviour. -/
structure OpOracle where
  start : Json → Json → Except String (List (String × Json))
  call : Json → Json → Json → Except String (List (String × Json))
  list : Json → Except String (List (String × Json))
  stop : Json → Except String (List (String × Json))
  listAll : Except String (List (String × Json))
  status : Except String (List (String × Json))
  getConfig : Except String (List (String × Json))

/-- The eight dispatchable command names (mcp_daemon.py:550-582). -/
def known_commands : List String :=
  ["start", "call", "list", "stop", "list-all", "status", "get-config", "shutdown"]

/-- Whether the request's `command` field equals one of the known names. -/
def knownCmd (o : Option Json) : Bool :=
  known_commands.any (fun s => optIsStr o s)

/-- `MCPDaemon.handle_request` (mcp_daemon.py:550-582): extract `command`,
dispatch in source order; missing mandatory fields raise `KeyError`; a
non-dict request raises `AttributeError` at `data.get`; an unknown command
returns an `error` response (it does not raise). -/
def handle_request (ops : OpOracle) (data : Json) :
    Except String (List (String × Json)) :=
  match data with
  | .obj _ =>
    let cmd := jget data "command"
    if optIsStr cmd "start" then
      match jget data "server" with
      | none => .error (key_error_msg "server")
      | some s =>
        match jget data "server_command" with
        | none => .error (key_error_msg "server_command")
        | some c => ops.start s c
    else if optIsStr cmd "call" then
      match jget data "server" with
      | none => .error (key_error_msg "server")
      | some s =>
        match jget data "tool" with
        | none => .error (key_error_msg "tool")
        | some t => ops.call s t ((jget data "arguments").getD (.obj []))
    else if optIsStr cmd "list" then
      match jget data "server" with
      | none => .error (key_error_msg "server")
      | some s => ops.list s
    else if optIsStr cmd "stop" then
      match jget data "server" with
      | none => .error (key_error_msg "server")
      | some s => ops.stop s
    else if optIsStr cmd "list-all" then ops.listAll
    else if optIsStr cmd "status" then ops.status
    else if optIsStr cmd "get-config" then ops.getConfig
    else if optIsStr cmd "shutdown" then
      .ok [("success", .bool true), ("message", .str "Daemon shutting down")]
    else .ok [("error", .str ("Unknown command: " ++ pyStrOpt cmd))]
  | j => .error (attr_error_msg j)

/-- Escape one character the way `json.dumps` escapes the characters that
occur in this codebase's messages. -/
def escChar (c : Char) : String :=
  if c = Char.ofNat 34 then "\\" ++ String.singleton (Char.ofNat 34)
  else if c = Char.ofNat 92 then "\\\\"
  else if c = Char.ofNat 10 then "\\n"
  else if c = Char.ofNat 9 then "\\t"
  else if c = Char.ofNat 13 then "\\r"
  else String.singleton c

def jsonEscape (s : String) : String :=
  String.join (s.data.map escChar)

mutual
/-- `json.dumps` with its default separators. -/
def jdump : Json → String
  | .null => "null"
  | .bool true => "true"
  | .bool false => "false"
  | .num n => toString n
  | .str s => "\"" ++ jsonEscape s ++ "\""
  | .arr xs => "[" ++ jdumpList xs ++ "]"
  | .obj fs => "\x7b" ++ jdumpFields fs ++ "\x7d"

def jdumpList : List Json → String
  | [] => ""
  | [x] => jdump x
  | x :: y :: xs => jdump x ++ ", " ++ jdumpList (y :: xs)

def jdumpFields : List (String × Json) → String
  | [] => ""
  | [(k, v)] => "\"" ++ jsonEscape k ++ "\": " ++ jdump v
  | (k, v) :: f :: fs =>
    "\"" ++ jsonEscape k ++ "\": " ++ jdump v ++ ", " ++ jdumpFields (f :: fs)
end

/-- Result of handling one accepted connection: the single line written back
(if any) and whether the socket was closed (the `finally`). -/
structure ConnResult where
  response : Option String
  closed : Bool

/-- `MCPDaemon.handle_connection` (mcp_daemon.py:617-643).  `input` is the
read request: `none` for an empty read (no reply is sent), `.error e` for a
`json.JSONDecodeError` with message `e`, `.ok j` for a parsed value.  Every
reply is one serialized JSON object plus a newline; the `finally` closes the
connection on every path. -/
def handle_connection (ops : OpOracle) (input : Option (Except String Json)) :
    ConnResult :=
  match input with
  | none => { response := none, closed := true }
  | some (.error e) =>
    { response := some (jdump (.obj [("error", .str ("Invalid JSON: " ++ e))]) ++ "\n"),
      closed := true }
  | some (.ok j) =>
    match handle_request ops j with
    | .ok fields => { response := some (jdump (.obj fields) ++ "\n"), closed := true }
    | .error e =>
      { response := some (jdump (.obj [("error", .str e)]) ++ "\n"), closed := true }

/-!  ## Lock-interleaving model for `call_tool` concurrency

`MCPDaemon.call_tool` executes the entire delegated stdio exchange inside
`with self.lock:` (mcp_daemon.py:358-372), where `self.lock` is the single
`threading.Lock` of the daemon.  A handler thread performing one `call`
therefore runs the event sequence: acquire the global lock, perform the
exchange steps, release the lock.  Schedules interleave two such threads;
a thread can only be scheduled when its next event is enabled (a blocked
acquire makes no progress). -/

inductive LockAct where
  | acq
  | work
  | rel
deriving DecidableEq

/-- The event sequence of one `call_tool` invocation whose stdio exchange
takes `n` time steps inside the child. -/
def callToolProg (n : Nat) : List LockAct :=
  LockAct.acq :: (List.replicate n LockAct.work ++ [LockAct.rel])

/-- One scheduled step of thread `t`: `none` when the thread cannot act
(finished, or blocked acquiring a held lock, which makes no progress).
Returns the new lock holder, the rest of the program and the event. -/
def stepThread (lock : Option Bool) (t : Bool) (prog : List LockAct) :
    Option (Option Bool × List LockAct × LockAct) :=
  match prog with
  | [] => none
  | LockAct.acq :: rest =>
    match lock with
    | none => some (some t, rest, LockAct.acq)
    | some _ => none
  | LockAct.work :: rest =>
    if lock = some t then some (lock, rest, LockAct.work) else none
  | LockAct.rel :: rest =>
    if lock = some t then some (none, rest, LockAct.rel) else none

/-- Run a schedule (which thread steps at each instant) to completion;
`none` if the schedule ever picks a thread that cannot act, or ends before
both threads finished.  The trace lists the events with their thread. -/
def runSched : List Bool → Option Bool → List LockAct → List LockAct →
    Option (List (Bool × LockAct))
  | [], _, p1, p2 => if p1 = [] && p2 = [] then some [] else none
  | t :: s, lock, p1, p2 =>
    match stepThread lock t (if t then p1 else p2) with
    | none => none
    | some (lock2, rest, ev) =>
      match runSched s lock2 (if t then rest else p1) (if t then p2 else rest) with
      | none => none
      | some tr => some ((t, ev) :: tr)

/-- The thread ids of the exchange (work) events of a trace, in order. -/
def workTids (tr : List (Bool × LockAct)) : List Bool :=
  (tr.filter (fun e => e.2 = LockAct.work)).map (·.1)

/-- Number of adjacent thread switches in a sequence of thread ids. -/
def switches : List Bool → Nat
  | [] => 0
  | [_] => 0
  | a :: b :: rest => (if a = b then 0 else 1) + switches (b :: rest)

/-- Two exchanges overlap in a trace iff their work events interleave,
i.e. the work thread-id sequence switches threads more than once. -/
def overlapping (tr : List (Bool × LockAct)) : Bool :=
  decide (2 ≤ switches (workTids tr))

/-- All boolean lists of length `n` (all schedules of `n` steps). -/
def allBoolLists : Nat → List (List Bool)
  | 0 => [[]]
  | n + 1 => (allBoolLists n).map (List.cons true) ++
             (allBoolLists n).map (List.cons false)

/-!  ## MCP stdio client message ids (cllm_mcp/client.py) -/

/-- The two client fields relevant to message correlation
(`MCPClient.__init__`, cllm_mcp/client.py:40-49). -/
structure PyMCPClient where
  server_command : String
  message_id : Nat
deriving DecidableEq

/-- `MCPClient.__init__`: the counter starts at 0. -/
def mkClient (cmd : String) : PyMCPClient := ⟨cmd, 0⟩

/-- `MCPClient._next_id` (cllm_mcp/client.py:139-142): increment, then
return the incremented counter. -/
def next_id (c : PyMCPClient) : PyMCPClient × Nat :=
  ({ c with message_id := c.message_id + 1 }, c.message_id + 1)

/-- An outgoing JSON-RPC message: its method and its `id` field (`none` for
a notification, which carries no id). -/
structure RpcMsg where
  method : String
  id : Option Nat
deriving DecidableEq

/-- The id-relevant client operations: `start` (sends `initialize` with a
fresh id, then the id-less `notifications/initialized`), `list_tools`
(sends `tools/list` with a fresh id), `call_tool` (sends `tools/call` with
a fresh id). -/
inductive ClientOp where
  | startOp
  | listToolsOp
  | callToolOp (tool : String)
deriving DecidableEq

/-- The messages one operation sends, with the updated client. -/
def runOp (c : PyMCPClient) : ClientOp → PyMCPClient × List RpcMsg
  | .startOp =>
    let (c2, i) := next_id c
    (c2, [{ method := "initialize", id := some i },
          { method := "notifications/initialized", id := none }])
  | .listToolsOp =>
    let (c2, i) := next_id c
    (c2, [{ method := "tools/list", id := some i }])
  | .callToolOp _ =>
    let (c2, i) := next_id c
    (c2, [{ method := "tools/call", id := some i }])

/-- Run a sequence of operations, collecting every outgoing message. -/
def runOps (c : PyMCPClient) : List ClientOp → PyMCPClient × List RpcMsg
  | [] => (c, [])
  | op :: rest =>
    let (c2, msgs) := runOp c op
    let (c3, msgs2) := runOps c2 rest
    (c3, msgs ++ msgs2)

/-- The ids attached to a message list, in send order. -/
def idsOf (msgs : List RpcMsg) : List Nat := msgs.filterMap (·.id)

/-!  ## MD5 and server-id synthesis (`get_server_id`, cllm_mcp/client.py:174-176)

`hashlib.md5` is the reference MD5 of RFC 1321, implemented here over byte
lists with 32-bit words as naturals reduced mod 2^32. -/

def w32 : Nat := 4294967296

/-- The 64 MD5 sine-derived constants. -/
def md5K : List Nat :=
  [0xd76aa478, 0xe8c7b756, 0x242070db, 0xc1bdceee,
   0xf57c0faf, 0x4787c62a, 0xa8304613, 0xfd469501,
   0x698098d8, 0x8b44f7af, 0xffff5bb1, 0x895cd7be,
   0x6b901122, 0xfd987193, 0xa679438e, 0x49b40821,
   0xf61e2562, 0xc040b340, 0x265e5a51, 0xe9b6c7aa,
   0xd62f105d, 0x02441453, 0xd8a1e681, 0xe7d3fbc8,
   0x21e1cde6, 0xc33707d6, 0xf4d50d87, 0x455a14ed,
   0xa9e3e905, 0xfcefa3f8, 0x676f02d9, 0x8d2a4c8a,
   0xfffa3942, 0x8771f681, 0x6d9d6122, 0xfde5380c,
   0xa4beea44, 0x4bdecfa9, 0xf6bb4b60, 0xbebfbc70,
   0x289b7ec6, 0xeaa127fa, 0xd4ef3085, 0x04881d05,
   0xd9d4d039, 0xe6db99e5, 0x1fa27cf8, 0xc4ac5665,
   0xf4292244, 0x432aff97, 0xab9423a7, 0xfc93a039,
   0x655b59c3, 0x8f0ccc92, 0xffeff47d, 0x85845dd1,
   0x6fa87e4f, 0xfe2ce6e0, 0xa3014314, 0x4e0811a1,
   0xf7537e82, 0xbd3af235, 0x2ad7d2bb, 0xeb86d391]

/-- The 64 MD5 per-round left-rotation amounts. -/
def md5S : List Nat :=
  [7, 12, 17, 22, 7, 12, 17, 22, 7, 12, 17, 22, 7, 12, 17, 22,
   5, 9, 14, 20, 5, 9, 14, 20, 5, 9, 14, 20, 5, 9, 14, 20,
   4, 11, 16, 23, 4, 11, 16, 23, 4, 11, 16, 23, 4, 11, 16, 23,
   6, 10, 15, 21, 6, 10, 15, 21, 6, 10, 15, 21, 6, 10, 15, 21]

/-- 32-bit left rotation. -/
def rotl32 (x s : Nat) : Nat :=
  ((x * 2 ^ s) % w32) ||| (x / 2 ^ (32 - s))

/-- Little-endian 32-bit word at index `g` of a 64-byte chunk. -/
def chunkWord (chunk : List Nat) (g : Nat) : Nat :=
  chunk.getD (4 * g) 0 + 256 * chunk.getD (4 * g + 1) 0 +
    65536 * chunk.getD (4 * g + 2) 0 + 16777216 * chunk.getD (4 * g + 3) 0

/-- One of the 64 MD5 rounds. -/
def md5Round (chunk : List Nat) (st : Nat × Nat × Nat × Nat) (i : Nat) :
    Nat × Nat × Nat × Nat :=
  let a := st.1
  let b := st.2.1
  let c := st.2.2.1
  let d := st.2.2.2
  let fg : Nat × Nat :=
    if i < 16 then ((b &&& c) ||| (((w32 - 1) ^^^ b) &&& d), i)
    else if i < 32 then ((d &&& b) ||| (((w32 - 1) ^^^ d) &&& c), (5 * i + 1) % 16)
    else if i < 48 then (b ^^^ c ^^^ d, (3 * i + 5) % 16)
    else (c ^^^ (b ||| ((w32 - 1) ^^^ d)), (7 * i) % 16)
  let f := (fg.1 + a + md5K.getD i 0 + chunkWord chunk fg.2) % w32
  (d, (b + rotl32 f (md5S.getD i 0)) % w32, b, c)

/-- Process one 64-byte chunk. -/
def md5Chunk (chunk : List Nat) (st : Nat × Nat × Nat × Nat) :
    Nat × Nat × Nat × Nat :=
  let r := (List.range 64).foldl (md5Round chunk) st
  ((st.1 + r.1) % w32, (st.2.1 + r.2.1) % w32,
   (st.2.2.1 + r.2.2.1) % w32, (st.2.2.2 + r.2.2.2) % w32)

/-- Fold over every 64-byte chunk, with a structural fuel bound (each
iteration consumes 64 bytes, so `fuel = bytes.length` always suffices). -/
def md5ChunksGo : Nat → List Nat → Nat × Nat × Nat × Nat → Nat × Nat × Nat × Nat
  | 0, _, st => st
  | _ + 1, [], st => st
  | fuel + 1, b :: bs, st =>
    md5ChunksGo fuel ((b :: bs).drop 64) (md5Chunk ((b :: bs).take 64) st)

/-- Fold over every 64-byte chunk of a padded message. -/
def md5Chunks (bytes : List Nat) (st : Nat × Nat × Nat × Nat) :
    Nat × Nat × Nat × Nat :=
  md5ChunksGo bytes.length bytes st

/-- MD5 padding: append `0x80`, zeros to 56 mod 64, then the original bit
length as 8 little-endian bytes. -/
def md5Pad (msg : List Nat) : List Nat :=
  let len := msg.length
  let z := (120 - (len + 1) % 64) % 64
  let bitLen := (len * 8) % 2 ^ 64
  msg ++ [128] ++ List.replicate z 0 ++
    [bitLen % 256, bitLen / 256 % 256, bitLen / 65536 % 256,
     bitLen / 16777216 % 256, bitLen / 4294967296 % 256,
     bitLen / 1099511627776 % 256, bitLen / 281474976710656 % 256,
     bitLen / 72057594037927936 % 256]

/-- Little-endian byte serialization of one 32-bit word. -/
def wordLEBytes (w : Nat) : List Nat :=
  [w % 256, w / 256 % 256, w / 65536 % 256, w / 16777216 % 256]

/-- Lower-case hex digit. -/
def hexDigit (n : Nat) : Char :=
  "0123456789abcdef".data.getD n (Char.ofNat 48)

/-- Two lower-case hex characters of one byte. -/
def byteHex (b : Nat) : List Char :=
  [hexDigit (b / 16 % 16), hexDigit (b % 16)]

/-- The 16 digest bytes of MD5 over a byte list. -/
def md5DigestBytes (msg : List Nat) : List Nat :=
  let st := md5Chunks (md5Pad msg)
    (0x67452301, 0xefcdab89, 0x98badcfe, 0x10325476)
  wordLEBytes st.1 ++ wordLEBytes st.2.1 ++ wordLEBytes st.2.2.1 ++
    wordLEBytes st.2.2.2

/-- The characters of `hashlib.md5(...).hexdigest()`. -/
def md5HexChars (msg : List Nat) : List Char :=
  (md5DigestBytes msg).map byteHex |>.join

/-- `hashlib.md5(...).hexdigest()` as a string. -/
def md5Hexdigest (msg : List Nat) : String :=
  String.mk (md5HexChars msg)

/-- UTF-8 encoding of one character (Python `str.encode()`). -/
def utf8EncodeChar (c : Char) : List Nat :=
  let n := c.toNat
  if n < 128 then [n]
  else if n < 2048 then [192 + n / 64, 128 + n % 64]
  else if n < 65536 then [224 + n / 4096, 128 + n / 64 % 64, 128 + n % 64]
  else [240 + n / 262144, 128 + n / 4096 % 64, 128 + n / 64 % 64, 128 + n % 64]

/-- `command.encode()`: the UTF-8 bytes of a string. -/
def strBytes (s : String) : List Nat :=
  (s.data.map utf8EncodeChar).join

/-- `get_server_id` (cllm_mcp/client.py:174-176):
`hashlib.md5(command.encode()).hexdigest()[:12]`. -/
def get_server_id (command : String) : String :=
  String.mk ((md5HexChars (strBytes command)).take 12)

/-- Whether a character is a lower-case hexadecimal digit. -/
def isHexChar (c : Char) : Bool :=
  "0123456789abcdef".data.contains c

/-- A concrete oracle: every registry operation returns a plain success
response (used to exercise the dispatcher on concrete requests). -/
def opsEx : OpOracle where
  start := fun _ _ => .ok [("success", .bool true)]
  call := fun _ _ _ => .ok [("success", .bool true)]
  list := fun _ => .ok [("success", .bool true)]
  stop := fun _ => .ok [("success", .bool true)]
  listAll := .ok [("success", .bool true)]
  status := .ok [("success", .bool true)]
  getConfig := .ok [("success", .bool true)]

/-!  ## Helper lemmas -/

theorem alist_lookup_erase_self {α : Type} (k : String) (l : List (String × α)) :
    alist_lookup k (alist_erase k l) = none := by
  induction l with
  | nil => rfl
  | cons p rest ih =>
    by_cases h : p.1 = k
    · simpa [alist_erase, h] using ih
    · simpa [alist_erase, alist_lookup, h] using ih

theorem alist_lookup_append_right {α : Type} (k : String) (v : α)
    (l : List (String × α)) (h : alist_lookup k l = none) :
    alist_lookup k (l ++ [(k, v)]) = some v := by
  induction l with
  | nil => simp [alist_lookup]
  | cons p rest ih =>
    by_cases hp : p.1 = k
    · simp [alist_lookup, hp] at h
    · simp [alist_lookup, hp] at h ⊢
      exact ih h

theorem alist_lookup_upsert_self {α : Type} (k : String) (v : α)
    (l : List (String × α)) : alist_lookup k (alist_upsert k v l) = some v := by
  induction l with
  | nil => simp [alist_upsert, alist_lookup]
  | cons p rest ih =>
    by_cases hp : p.1 = k
    · simp [alist_upsert, alist_lookup, hp]
    · simpa [alist_upsert, alist_lookup, hp] using ih

theorem mem_set_add_self (x : String) (l : List String) : x ∈ set_add x l := by
  by_cases h : x ∈ l
  · simp [set_add, h]
  · simp [set_add, h]

theorem string_append_ne_empty (a b : String) (h : a.length ≠ 0) : a ++ b ≠ "" := by
  intro h2
  apply h
  have h3 := congrArg String.length h2
  rw [String.length_append, String.length_empty] at h3
  omega

theorem ToolCallFail_msg_ne_empty (f : ToolCallFail) : f.msg ≠ "" := by
  cases f with
  | errResponse m => exact string_append_ne_empty _ _ (by decide)
  | noResponse s => exact string_append_ne_empty _ _ (by decide)
  | invalidJson l e =>
    apply string_append_ne_empty
    rw [String.length_append]
    have h9 : ". Error: ".length = 9 := rfl
    omega
  | notStarted => decide

/-!  ## C1: crash-then-retry behaviour of `call_tool` -/

/-- C1 (counterexample): with server `"a"` live, auto-started and stamped,
a failing `call_tool` evicts it from the registry but the auxiliary
structures (`auto_started_servers`, `server_start_times`) still contain it,
contradicting the claim that after a failing call they do not. -/
theorem C1_counterexample :
    (call_tool ⟨[("a", "cmd")], ["a"], [("a", 5)]⟩ "a"
        (.fail (.noResponse ""))).1.auto_started_servers = ["a"]
    ∧ alist_lookup "a" (call_tool ⟨[("a", "cmd")], ["a"], [("a", 5)]⟩ "a"
        (.fail (.noResponse ""))).1.server_start_times = some 5
    ∧ alist_lookup "a" (call_tool ⟨[("a", "cmd")], ["a"], [("a", 5)]⟩ "a"
        (.fail (.noResponse ""))).1.servers = none := by
  refine ⟨rfl, rfl, rfl⟩

/-- C1 (amended): for every registry-present id, a failing `call_tool`
evicts the id from the registry, returns a non-empty `error` equal to the
raised exception text together with `retry = true`, and a second identical
`call_tool` with no intervening start returns the notRunning error leaving
the state unchanged; `call_tool` on an absent id always returns the
notRunning error without modifying any state.  The auxiliary structures
(`auto_started_servers`, `server_start_times`), however, are left unchanged
by the eviction (they retain the id so the health monitor can restart it),
not emptied of it as the original claim states. -/
theorem C1_call_tool_crash_eviction (st : DaemonState) (server : String)
    (f : ToolCallFail) (o2 : ToolCallOutcome)
    (hpres : alist_lookup server st.servers ≠ none) :
    alist_lookup server (call_tool st server (.fail f)).1.servers = none
    ∧ (call_tool st server (.fail f)).1.auto_started_servers = st.auto_started_servers
    ∧ (call_tool st server (.fail f)).1.server_start_times = st.server_start_times
    ∧ (call_tool st server (.fail f)).2.error = some f.msg
    ∧ f.msg ≠ ""
    ∧ (call_tool st server (.fail f)).2.retry = some true
    ∧ call_tool (call_tool st server (.fail f)).1 server o2 =
        ((call_tool st server (.fail f)).1,
          { error := some (not_running_msg server) })
    ∧ (∀ st2 srv2 o3, alist_lookup srv2 st2.servers = none →
        call_tool st2 srv2 o3 = (st2, { error := some (not_running_msg srv2) })) := by
  obtain ⟨v, hv⟩ : ∃ v, alist_lookup server st.servers = some v := by
    cases h : alist_lookup server st.servers with
    | none => exact absurd h hpres
    | some v => exact ⟨v, rfl⟩
  have habsent : ∀ (st2 : DaemonState) (srv2 : String) (o3 : ToolCallOutcome),
      alist_lookup srv2 st2.servers = none →
      call_tool st2 srv2 o3 = (st2, { error := some (not_running_msg srv2) }) := by
    intro st2 srv2 o3 h
    simp [call_tool, h]
  refine ⟨?_, ?_, ?_, ?_, ToolCallFail_msg_ne_empty f, ?_, ?_, habsent⟩
  · simp [call_tool, hv, alist_lookup_erase_self]
  · simp [call_tool, hv]
  · simp [call_tool, hv]
  · simp [call_tool, hv]
  · simp [call_tool, hv]
  · exact habsent _ _ _ (by simp [call_tool, hv, alist_lookup_erase_self])

/-- Witness for C1: the amended theorem applied at a concrete state. -/
theorem C1_witness :
    alist_lookup "a" (call_tool ⟨[("a", "c")], ["a"], [("a", 1)]⟩ "a"
        (.fail .notStarted)).1.servers = none
    ∧ (call_tool ⟨[("a", "c")], ["a"], [("a", 1)]⟩ "a"
        (.fail .notStarted)).2.retry = some true :=
  ⟨(C1_call_tool_crash_eviction ⟨[("a", "c")], ["a"], [("a", 1)]⟩ "a"
      .notStarted (.ok "r") (by decide)).1,
   (C1_call_tool_crash_eviction ⟨[("a", "c")], ["a"], [("a", 1)]⟩ "a"
      .notStarted (.ok "r") (by decide)).2.2.2.2.2.1⟩

/-!  ## C3: `start_server` idempotence and atomicity -/

/-- C3: `start_server` on a present id returns the alreadyRunning success
and changes nothing; on handshake failure it returns an error and changes
nothing; on success it inserts the id and records it in
`auto_started_servers` with a `server_start_times` stamp exactly when
`auto_start` is true. -/
theorem C3_start_server_idempotent_atomic (st : DaemonState) (name command : String)
    (oc : StartOutcome) (auto : Bool) (now : Nat) :
    (alist_lookup name st.servers ≠ none →
      start_server st name command oc auto now
        = (st, { success := some true, message := some "Server already running" }))
    ∧ (∀ e, alist_lookup name st.servers = none → oc = .fail e →
      start_server st name command oc auto now
        = (st, { success := some false, error := some e }))
    ∧ (alist_lookup name st.servers = none → oc = .ok →
      alist_lookup name (start_server st name command oc auto now).1.servers = some command
      ∧ (start_server st name command oc auto now).2.success = some true
      ∧ (auto = true →
          name ∈ (start_server st name command oc auto now).1.auto_started_servers
          ∧ alist_lookup name
              (start_server st name command oc auto now).1.server_start_times = some now)
      ∧ (auto = false →
          (start_server st name command oc auto now).1.auto_started_servers
            = st.auto_started_servers
          ∧ (start_server st name command oc auto now).1.server_start_times
            = st.server_start_times)) := by
  refine ⟨?_, ?_, ?_⟩
  · intro hpres
    obtain ⟨v, hv⟩ : ∃ v, alist_lookup name st.servers = some v := by
      cases h : alist_lookup name st.servers with
      | none => exact absurd h hpres
      | some v => exact ⟨v, rfl⟩
    simp [start_server, hv]
  · intro e habs hoc
    subst hoc
    simp [start_server, habs]
  · intro habs hoc
    subst hoc
    cases auto with
    | true =>
      refine ⟨?_, ?_, ?_, ?_⟩
      · simp [start_server, habs, alist_lookup_append_right _ _ _ habs]
      · simp [start_server, habs]
      · intro _
        exact ⟨by simp [start_server, habs, mem_set_add_self],
               by simp [start_server, habs, alist_lookup_upsert_self]⟩
      · intro h
        cases h
    | false =>
      refine ⟨?_, ?_, ?_, ?_⟩
      · simp [start_server, habs, alist_lookup_append_right _ _ _ habs]
      · simp [start_server, habs]
      · intro h
        cases h
      · intro _
        exact ⟨by simp [start_server, habs], by simp [start_server, habs]⟩

/-- Witness for C3: a successful auto-start insert at a concrete state. -/
theorem C3_witness :
    alist_lookup "s" (start_server ⟨[], [], []⟩ "s" "c" .ok true 7).1.servers = some "c"
    ∧ "s" ∈ (start_server ⟨[], [], []⟩ "s" "c" .ok true 7).1.auto_started_servers := by
  have h := (C3_start_server_idempotent_atomic ⟨[], [], []⟩ "s" "c" .ok true 7).2.2
    rfl rfl
  exact ⟨h.1, (h.2.2.1 rfl).1⟩

/-!  ## C4: `stop_server` -/

/-- C4 (counterexample): stopping the live, auto-started server `"a"`
removes it from the registry but leaves it in `auto_started_servers` and
`server_start_times`, contradicting the claim that `stop_server` drops the
id from the auxiliary sets. -/
theorem C4_counterexample :
    alist_lookup "a" (stop_server ⟨[("a", "c")], ["a"], [("a", 3)]⟩ "a" .ok).1.servers
      = none
    ∧ (stop_server ⟨[("a", "c")], ["a"], [("a", 3)]⟩ "a" .ok).1.auto_started_servers
      = ["a"]
    ∧ alist_lookup "a"
        (stop_server ⟨[("a", "c")], ["a"], [("a", 3)]⟩ "a" .ok).1.server_start_times
      = some 3 := by
  refine ⟨rfl, rfl, rfl⟩

/-- C4 (amended): `stop_server` on an absent id returns the notRunning
message and changes nothing; on a present id it invokes client termination
and, when termination does not raise, removes the id from the registry and
reports success (if termination raises, the entry stays and an error is
returned).  The auxiliary structures (`auto_started_servers`,
`server_start_times`) are left unchanged in every case — the id is not
dropped from them as the original claim states. -/
theorem C4_stop_server (st : DaemonState) (name : String) (oc : StopOutcome) :
    (alist_lookup name st.servers = none →
      stop_server st name oc =
        (st,
         { success := some true,
           message := some ("Server " ++ pyq ++ name ++ pyq ++ " not running") },
         false))
    ∧ (alist_lookup name st.servers ≠ none →
        (stop_server st name oc).2.2 = true
        ∧ (oc = .ok →
            alist_lookup name (stop_server st name oc).1.servers = none
            ∧ (stop_server st name oc).2.1.success = some true)
        ∧ (∀ e, oc = .fail e → (stop_server st name oc).1 = st
            ∧ (stop_server st name oc).2.1
              = { success := some false, error := some e }))
    ∧ (stop_server st name oc).1.auto_started_servers = st.auto_started_servers
    ∧ (stop_server st name oc).1.server_start_times = st.server_start_times := by
  refine ⟨?_, ?_, ?_, ?_⟩
  · intro habs
    simp [stop_server, habs]
  · intro hpres
    obtain ⟨v, hv⟩ : ∃ v, alist_lookup name st.servers = some v := by
      cases h : alist_lookup name st.servers with
      | none => exact absurd h hpres
      | some v => exact ⟨v, rfl⟩
    refine ⟨?_, ?_, ?_⟩
    · cases oc <;> simp [stop_server, hv]
    · intro hoc
      subst hoc
      exact ⟨by simp [stop_server, hv, alist_lookup_erase_self],
             by simp [stop_server, hv]⟩
    · intro e hoc
      subst hoc
      exact ⟨by simp [stop_server, hv], by simp [stop_server, hv]⟩
  · cases h : alist_lookup name st.servers with
    | none => simp [stop_server, h]
    | some v => cases oc <;> simp [stop_server, h]
  · cases h : alist_lookup name st.servers with
    | none => simp [stop_server, h]
    | some v => cases oc <;> simp [stop_server, h]

/-- Witness for C4: a successful stop at a concrete state. -/
theorem C4_witness :
    alist_lookup "a" (stop_server ⟨[("a", "c")], [], []⟩ "a" .ok).1.servers = none
    ∧ (stop_server ⟨[("a", "c")], [], []⟩ "a" .ok).2.1.success = some true := by
  have h := (C4_stop_server ⟨[("a", "c")], [], []⟩ "a" .ok).2.1 (by decide)
  exact h.2.1 rfl

/-!  ## C5: the initializer -/

theorem cfg_optional_eq :
    ∀ (cfg : List ServerCfg) (s : ServerCfg),
      (cfg.map ServerCfg.name).Nodup → s ∈ cfg →
      cfg_optional cfg s.name = s.optional := by
  intro cfg
  induction cfg with
  | nil => intro s _ hs; cases hs
  | cons c rest ih =>
    intro s hnd hs
    rw [List.map_cons, List.nodup_cons] at hnd
    cases hs with
    | head =>
      simp only [cfg_optional]
      rw [List.find?_cons_of_pos _ (by simp)]
    | tail _ hmem =>
      have hmm : s.name ∈ rest.map ServerCfg.name :=
        List.mem_map_of_mem ServerCfg.name hmem
      have hne : ¬ (c.name = s.name) := fun h => hnd.1 (h ▸ hmm)
      have ih2 := ih s hnd.2 hmem
      simp only [cfg_optional] at ih2 ⊢
      rw [List.find?_cons_of_neg _ (by simp [hne])]
      exact ih2

theorem init_result_of_fst (outcome : String → StartOutcome) (s : ServerCfg) :
    (init_result_of outcome s).1 = s.name := by
  cases h : outcome s.name <;> simp [init_result_of, h]

theorem init_result_of_snd (outcome : String → StartOutcome) (s : ServerCfg) :
    (init_result_of outcome s).2.1 = decide (outcome s.name = StartOutcome.ok) := by
  cases h : outcome s.name <;> simp [init_result_of, h]

theorem length_filter_add_length_filter_not {α : Type} (p : α → Bool) (l : List α) :
    (l.filter p).length + (l.filter (fun a => !p a)).length = l.length := by
  induction l with
  | nil => rfl
  | cons a rest ih =>
    cases h : p a <;> simp [List.filter_cons, h] <;> omega

theorem init_success_eq (cfg : List ServerCfg) (outcome : String → StartOutcome) :
    (init_results cfg outcome).filter (fun r => r.2.1)
      = ((servers_to_start cfg).filter
          (fun s => decide (outcome s.name = StartOutcome.ok))).map
          (init_result_of outcome) := by
  unfold init_results
  rw [List.filter_map]
  congr 1
  apply List.filter_congr
  intro s _
  simp [Function.comp, init_result_of_snd]

theorem init_failed_eq (cfg : List ServerCfg) (outcome : String → StartOutcome) :
    init_failed cfg outcome
      = ((servers_to_start cfg).filter
          (fun s => !decide (outcome s.name = StartOutcome.ok))).map
          (init_result_of outcome) := by
  unfold init_failed init_results
  rw [List.filter_map]
  congr 1
  apply List.filter_congr
  intro s _
  simp [Function.comp, init_result_of_snd]

theorem init_required_eq (cfg : List ServerCfg) (outcome : String → StartOutcome)
    (hnd : (cfg.map ServerCfg.name).Nodup) :
    init_required cfg outcome
      = ((servers_to_start cfg).filter
          (fun s => !decide (outcome s.name = StartOutcome.ok) && !s.optional)).map
          ServerCfg.name := by
  unfold init_required
  rw [init_failed_eq, List.filter_map, List.map_map, List.filter_filter]
  have hcongr : (servers_to_start cfg).filter
      (fun a => ((fun r => !cfg_optional cfg r.1) ∘ init_result_of outcome) a &&
        !decide (outcome a.name = StartOutcome.ok))
      = (servers_to_start cfg).filter
        (fun s => !decide (outcome s.name = StartOutcome.ok) && !s.optional) := by
    apply List.filter_congr
    intro s hmem
    have hc : s ∈ cfg := List.mem_of_mem_filter hmem
    simp [Function.comp, init_result_of_fst, cfg_optional_eq cfg s hnd hc,
      Bool.and_comm]
  rw [hcongr]
  apply List.map_congr_left
  intro s _
  simp [Function.comp, init_result_of_fst]

theorem init_required_ne_nil_iff (cfg : List ServerCfg)
    (outcome : String → StartOutcome) (hnd : (cfg.map ServerCfg.name).Nodup) :
    init_required cfg outcome ≠ [] ↔
      ∃ s ∈ servers_to_start cfg,
        ¬ outcome s.name = StartOutcome.ok ∧ s.optional = false := by
  rw [init_required_eq cfg outcome hnd, Ne, List.map_eq_nil_iff,
    List.filter_eq_nil_iff]
  push_neg
  constructor
  · rintro ⟨s, hs, hp⟩
    simp only [Bool.and_eq_true, Bool.not_eq_true', decide_eq_false_iff_not] at hp
    exact ⟨s, hs, hp.1, hp.2⟩
  · rintro ⟨s, hs, h1, h2⟩
    refine ⟨s, hs, ?_⟩
    simp only [Bool.and_eq_true, Bool.not_eq_true', decide_eq_false_iff_not]
    exact ⟨h1, h2⟩

/-- C5: with auto-initialization enabled, the initializer aborts (returns
`.error`) exactly when `onInitFailure = "fail"` and some non-optional
auto-start server failed; otherwise the returned record has
`total` = number of configured servers with `autoStart = true`,
`successful + failed = total`, `failed` = number of failed auto-start
servers, and `optional_failures = failed` minus the number of failed
non-optional servers. -/
theorem C5_init_servers (cfg : List ServerCfg) (on_failure : String)
    (outcome : String → StartOutcome)
    (hnd : (cfg.map ServerCfg.name).Nodup) :
    ((∃ msg, init_servers cfg on_failure false outcome = .error msg) ↔
      (on_failure = "fail" ∧ ∃ s ∈ servers_to_start cfg,
        ¬ outcome s.name = StartOutcome.ok ∧ s.optional = false))
    ∧ (∀ r, init_servers cfg on_failure false outcome = .ok r →
        r.total = (cfg.filter (fun s => s.autoStart)).length
        ∧ r.successful + r.failed = r.total
        ∧ r.failed = ((servers_to_start cfg).filter
            (fun s => !decide (outcome s.name = StartOutcome.ok))).length
        ∧ r.optional_failures = r.failed
            - ((servers_to_start cfg).filter
                (fun s => !decide (outcome s.name = StartOutcome.ok) &&
                  !s.optional)).length) := by
  by_cases h0 : servers_to_start cfg = []
  · have hok0 : init_servers cfg on_failure false outcome = .ok ⟨0, 0, 0, 0, []⟩ := by
      simp [init_servers, h0]
    constructor
    · simp [hok0, h0]
    · intro r hr
      rw [hok0, Except.ok.injEq] at hr
      subst hr
      have hcf : cfg.filter (fun s => s.autoStart) = [] := h0
      simp [hcf, h0]
  · by_cases habort : init_required cfg outcome ≠ [] ∧ on_failure = "fail"
    · have hokE : init_servers cfg on_failure false outcome
          = .error ("Failed to start required servers: " ++
            String.intercalate ", " (init_required cfg outcome)) := by
        simp [init_servers, h0, habort]
      constructor
      · rw [hokE]
        constructor
        · intro _
          exact ⟨habort.2, (init_required_ne_nil_iff cfg outcome hnd).mp habort.1⟩
        · intro _
          exact ⟨_, rfl⟩
      · intro r hr
        rw [hokE] at hr
        cases hr
    · have hok : init_servers cfg on_failure false outcome
          = .ok ⟨(servers_to_start cfg).length,
                 ((init_results cfg outcome).filter (fun r => r.2.1)).length,
                 (init_failed cfg outcome).length,
                 (init_failed cfg outcome).length - (init_required cfg outcome).length,
                 init_results cfg outcome⟩ := by
        simp [init_servers, h0, habort]
      constructor
      · rw [hok]
        constructor
        · rintro ⟨msg, hmsg⟩
          cases hmsg
        · rintro ⟨hfail, hex⟩
          exact absurd ⟨(init_required_ne_nil_iff cfg outcome hnd).mpr hex, hfail⟩
            habort
      · intro r hr
        rw [hok, Except.ok.injEq] at hr
        subst hr
        refine ⟨rfl, ?_, ?_, ?_⟩
        · show ((init_results cfg outcome).filter (fun r => r.2.1)).length
            + (init_failed cfg outcome).length = (servers_to_start cfg).length
          rw [init_success_eq, init_failed_eq, List.length_map, List.length_map]
          exact length_filter_add_length_filter_not _ _
        · show (init_failed cfg outcome).length = _
          rw [init_failed_eq, List.length_map]
        · show (init_failed cfg outcome).length - (init_required cfg outcome).length
            = (init_failed cfg outcome).length - _
          rw [init_required_eq cfg outcome hnd, List.length_map]

/-- Witness for C5: spec scenario 5 (three auto-start servers, the middle
one optional and failing, policy `warn`) through the theorem. -/
theorem C5_witness :
    resEx.total = (cfgEx.filter (fun s => s.autoStart)).length
    ∧ resEx.successful + resEx.failed = resEx.total := by
  have h := (C5_init_servers cfgEx "warn" ocEx (by decide)).2 resEx (by rfl)
  exact ⟨h.1, h.2.1⟩

/-!  ## C2: availability probe and mode selection -/

/-- C2: `should_use_daemon` is false whenever `no_daemon` is set, without
depending on the probe environment; otherwise it equals the probe result;
the probe reports available exactly when the socket file exists, the
connection succeeds and the status request yields (within the timeout) a
non-empty response that parses as JSON; and a missing socket file yields
unavailable regardless of every other aspect of the environment. -/
theorem C2_should_use_daemon (jsonOk : String → Bool) (no_daemon : Bool)
    (env : ProbeEnv) :
    (no_daemon = true → ∀ env2,
      should_use_daemon jsonOk true env2 = false)
    ∧ (no_daemon = false →
      should_use_daemon jsonOk false env = is_daemon_available jsonOk env)
    ∧ (is_daemon_available jsonOk env = true ↔
      env.socketExists = true ∧ env.connectOk = true ∧
        ∃ d, env.recv = .data d ∧ d ≠ "" ∧ jsonOk d = true)
    ∧ (∀ c r, is_daemon_available jsonOk ⟨false, c, r⟩ = false) := by
  obtain ⟨se, co, rv⟩ := env
  refine ⟨fun _ env2 => rfl, fun _ => rfl, ?_, fun c r => rfl⟩
  cases se with
  | false => simp [is_daemon_available]
  | true =>
    cases co with
    | false => simp [is_daemon_available]
    | true =>
      cases rv with
      | timeout => simp [is_daemon_available]
      | data d =>
        by_cases hd : d = ""
        · subst hd
          simp [is_daemon_available]
        · cases hj : jsonOk d with
          | false => simp [is_daemon_available, hd, hj]
          | true => simp [is_daemon_available, hd, hj]

/-- Witness for C2: a live probe environment through the theorem. -/
theorem C2_witness :
    is_daemon_available (fun s => s = "ok") ⟨true, true, .data "ok"⟩ = true
    ∧ should_use_daemon (fun s => s = "ok") false ⟨true, true, .data "ok"⟩
        = is_daemon_available (fun s => s = "ok") ⟨true, true, .data "ok"⟩ := by
  have h := C2_should_use_daemon (fun s => s = "ok") false ⟨true, true, .data "ok"⟩
  exact ⟨h.2.2.1.mpr ⟨rfl, rfl, "ok", rfl, by decide, by decide⟩, h.2.1 rfl⟩

/-!  ## C6: `MCPClient.stop` -/

/-- C6 (counterexample): when the child does not exit within the 5-second
grace period, `stop` raises the wait timeout (`TimeoutExpired` propagates)
and performs no forcible kill — there is no `killChild` action on any path,
contradicting the claim that the process is forcibly terminated after the
grace period. -/
theorem C6_counterexample :
    (MCPClient_stop true false).2 = some "TimeoutExpired"
    ∧ StopAction.killChild ∉ (MCPClient_stop true false).1 := by
  exact ⟨rfl, by decide⟩

/-- C6 (amended): for a started client, `stop` closes stdin (first), then
stdout and stderr, signals the process to exit and waits with the 5-second
grace period; if the child exits within the grace period the call returns
normally, otherwise the wait raises `TimeoutExpired` which propagates — the
process is never forcibly killed and the process handle is not reaped on
that path.  On a never-started client `stop` does nothing. -/
theorem C6_stop_behaviour (exits : Bool) :
    (MCPClient_stop true exits).1
      = [.closeStdin, .closeStdout, .closeStderr, .terminate, .waitChild]
    ∧ (MCPClient_stop true exits).1.head? = some .closeStdin
    ∧ StopAction.terminate ∈ (MCPClient_stop true exits).1
    ∧ StopAction.killChild ∉ (MCPClient_stop true exits).1
    ∧ (MCPClient_stop true exits).2
      = (if exits then none else some "TimeoutExpired")
    ∧ MCPClient_stop false exits = ([], none) := by
  cases exits <;> exact ⟨rfl, rfl, by decide, by decide, rfl, rfl⟩

/-!  ## C7: connection handling -/

theorem handle_request_unknown (ops : OpOracle) (fs : List (String × Json))
    (h : knownCmd (jget (.obj fs) "command") = false) :
    handle_request ops (.obj fs)
      = .ok [("error",
          .str ("Unknown command: " ++ pyStrOpt (jget (.obj fs) "command")))] := by
  simp only [knownCmd, known_commands, List.any_cons, List.any_nil,
    Bool.or_eq_false_iff] at h
  obtain ⟨h1, h2, h3, h4, h5, h6, h7, h8, -⟩ := h
  simp only [handle_request, h1, h2, h3, h4, h5, h6, h7, h8, Bool.false_eq_true,
    if_false]

/-- C7: for every non-empty inbound request, the connection handler emits
exactly one newline-terminated serialized JSON object and closes the
connection; malformed JSON yields an `Invalid JSON: ...` error object; an
unknown `command` yields an `Unknown command: ...` error object; any
exception raised while handling the request is converted into an
`{"error": ...}` object; an empty read produces no reply (and still
closes). -/
theorem C7_handle_connection (ops : OpOracle) (x : Except String Json) :
    (handle_connection ops (some x)).closed = true
    ∧ (∃ fields, (handle_connection ops (some x)).response
        = some (jdump (.obj fields) ++ "\n"))
    ∧ (∀ e, x = .error e →
        (handle_connection ops (some x)).response
          = some (jdump (.obj [("error", .str ("Invalid JSON: " ++ e))]) ++ "\n"))
    ∧ (∀ j e, x = .ok j → handle_request ops j = .error e →
        (handle_connection ops (some x)).response
          = some (jdump (.obj [("error", .str e)]) ++ "\n"))
    ∧ (∀ fs, x = .ok (.obj fs) → knownCmd (jget (.obj fs) "command") = false →
        (handle_connection ops (some x)).response
          = some (jdump (.obj [("error",
              .str ("Unknown command: " ++ pyStrOpt (jget (.obj fs) "command")))])
            ++ "\n"))
    ∧ (handle_connection ops none).response = none
    ∧ (handle_connection ops none).closed = true := by
  refine ⟨?_, ?_, ?_, ?_, ?_, rfl, rfl⟩
  · cases x with
    | error e => rfl
    | ok j =>
      cases hr : handle_request ops j <;> simp [handle_connection, hr]
  · cases x with
    | error e => exact ⟨_, rfl⟩
    | ok j =>
      cases hr : handle_request ops j with
      | error e => exact ⟨[("error", .str e)], by simp [handle_connection, hr]⟩
      | ok fields => exact ⟨fields, by simp [handle_connection, hr]⟩
  · rintro e rfl
    rfl
  · rintro j e rfl hr
    simp [handle_connection, hr]
  · rintro fs rfl hk
    simp [handle_connection, handle_request_unknown ops fs hk]

/-- Witness for C7: an unknown command and a malformed request through the
theorem. -/
theorem C7_witness :
    (handle_connection opsEx
        (some (.ok (.obj [("command", .str "frobnicate")])))).response
      = some (jdump (.obj [("error",
          .str ("Unknown command: " ++
            pyStrOpt (jget (.obj [("command", .str "frobnicate")]) "command")))])
        ++ "\n")
    ∧ (handle_connection opsEx (some (.error "bad"))).response
      = some (jdump (.obj [("error", .str ("Invalid JSON: " ++ "bad"))]) ++ "\n")
    ∧ (handle_connection opsEx (some (.error "bad"))).closed = true := by
  have h1 := C7_handle_connection opsEx (.ok (.obj [("command", .str "frobnicate")]))
  have h2 := C7_handle_connection opsEx (.error "bad")
  exact ⟨h1.2.2.2.2.1 [("command", .str "frobnicate")] rfl rfl,
         h2.2.2.1 "bad" rfl, h2.1⟩

/-!  ## C8: concurrency of `call_tool` across distinct servers -/

theorem stepThread_length (lock : Option Bool) (t : Bool) (prog : List LockAct)
    (lock2 : Option Bool) (rest : List LockAct) (ev : LockAct)
    (h : stepThread lock t prog = some (lock2, rest, ev)) :
    prog.length = rest.length + 1 := by
  cases prog with
  | nil => cases h
  | cons a rest2 =>
    cases a with
    | acq =>
      cases lock with
      | none => cases h; rfl
      | some _ => cases h
    | work =>
      by_cases hl : lock = some t
      · rw [stepThread, if_pos hl] at h
        cases h
        rfl
      · rw [stepThread, if_neg hl] at h
        cases h
    | rel =>
      by_cases hl : lock = some t
      · rw [stepThread, if_pos hl] at h
        cases h
        rfl
      · rw [stepThread, if_neg hl] at h
        cases h

theorem runSched_length :
    ∀ (s : List Bool) (lock : Option Bool) (p1 p2 : List LockAct)
      (tr : List (Bool × LockAct)), runSched s lock p1 p2 = some tr →
      s.length = p1.length + p2.length := by
  intro s
  induction s with
  | nil =>
    intro lock p1 p2 tr h
    simp only [runSched] at h
    split at h
    · rename_i hcond
      rw [Bool.and_eq_true, decide_eq_true_eq, decide_eq_true_eq] at hcond
      simp [hcond.1, hcond.2]
    · cases h
  | cons t s ih =>
    intro lock p1 p2 tr h
    simp only [runSched] at h
    cases hst : stepThread lock t (if t then p1 else p2) with
    | none => simp [hst] at h
    | some val =>
      obtain ⟨lock2, rest, ev⟩ := val
      cases hrec : runSched s lock2 (if t then rest else p1)
          (if t then p2 else rest) with
      | none => simp [hst, hrec] at h
      | some tr2 =>
        have hlen := ih lock2 (if t then rest else p1) (if t then p2 else rest)
          tr2 hrec
        have hcons := stepThread_length lock t (if t then p1 else p2) lock2 rest
          ev hst
        cases t <;> simp at hlen hcons ⊢ <;> omega

theorem mem_allBoolLists : ∀ (l : List Bool), l ∈ allBoolLists l.length := by
  intro l
  induction l with
  | nil => simp [allBoolLists]
  | cons b bs ih =>
    cases b with
    | false =>
      simp only [List.length_cons, allBoolLists, List.mem_append, List.mem_map]
      exact Or.inr ⟨bs, ih, rfl⟩
    | true =>
      simp only [List.length_cons, allBoolLists, List.mem_append, List.mem_map]
      exact Or.inl ⟨bs, ih, rfl⟩

theorem no_overlap_sched8 :
    ((allBoolLists 8).all fun s =>
      match runSched s none (callToolProg 2) (callToolProg 2) with
      | none => true
      | some tr => !overlapping tr) = true := by decide

/-- C8 (counterexample): in the lock model of `call_tool` — the whole stdio
exchange runs inside `with self.lock:` — NO schedule of two concurrent
calls against (distinct) servers interleaves their exchanges: the claim
that a call against a different server can proceed while another call is
blocked in its exchange is false for every execution. -/
theorem C8_counterexample :
    ¬ ∃ (s : List Bool) (tr : List (Bool × LockAct)),
        runSched s none (callToolProg 2) (callToolProg 2) = some tr
        ∧ overlapping tr = true := by
  rintro ⟨s, tr, hrun, hov⟩
  have hlen := runSched_length s none (callToolProg 2) (callToolProg 2) tr hrun
  have hs8 : s.length = 8 := by simpa [callToolProg] using hlen
  have hmem : s ∈ allBoolLists 8 := hs8 ▸ mem_allBoolLists s
  have hall := no_overlap_sched8
  rw [List.all_eq_true] at hall
  have hthis := hall s hmem
  simp [hrun, hov] at hthis

/-- C8 (amended): because `call_tool` performs the delegated stdio exchange
while holding the daemon's single registry lock, two simultaneous calls
against two distinct servers serialize completely: in every valid
interleaving one call's exchange finishes before the other's begins, so the
two calls take the sum of their exchange durations, not the maximum. -/
theorem C8_call_tool_serializes (s : List Bool) (tr : List (Bool × LockAct))
    (h : runSched s none (callToolProg 2) (callToolProg 2) = some tr) :
    overlapping tr = false := by
  have hlen := runSched_length s none (callToolProg 2) (callToolProg 2) tr h
  have hs8 : s.length = 8 := by simpa [callToolProg] using hlen
  have hmem : s ∈ allBoolLists 8 := hs8 ▸ mem_allBoolLists s
  have hall := no_overlap_sched8
  rw [List.all_eq_true] at hall
  have hthis := hall s hmem
  simp only [h] at hthis
  simpa using hthis

/-- Witness for C8: the first-thread-first schedule through the theorem. -/
theorem C8_witness :
    overlapping [(true, LockAct.acq), (true, LockAct.work), (true, LockAct.work),
      (true, LockAct.rel), (false, LockAct.acq), (false, LockAct.work),
      (false, LockAct.work), (false, LockAct.rel)] = false :=
  C8_call_tool_serializes [true, true, true, true, false, false, false, false]
    _ (by rfl)

/-!  ## C9: JSON-RPC message ids -/

theorem runOp_message_id (c : PyMCPClient) (op : ClientOp) :
    (runOp c op).1 = { c with message_id := c.message_id + 1 }
    ∧ idsOf (runOp c op).2 = [c.message_id + 1] := by
  cases op <;> exact ⟨rfl, rfl⟩

theorem runOps_cons (c : PyMCPClient) (op : ClientOp) (rest : List ClientOp) :
    runOps c (op :: rest)
      = ((runOps (runOp c op).1 rest).1,
         (runOp c op).2 ++ (runOps (runOp c op).1 rest).2) := by
  cases hop : runOp c op with
  | mk c2 msgs =>
    cases hrec : runOps c2 rest with
    | mk c3 msgs2 => simp [runOps, hop, hrec]

theorem idsOf_append (a b : List RpcMsg) : idsOf (a ++ b) = idsOf a ++ idsOf b :=
  List.filterMap_append a b _

theorem runOps_spec :
    ∀ (ops : List ClientOp) (c : PyMCPClient),
      (runOps c ops).1.message_id = c.message_id + ops.length
      ∧ idsOf (runOps c ops).2 = List.range' (c.message_id + 1) ops.length := by
  intro ops
  induction ops with
  | nil => intro c; exact ⟨rfl, rfl⟩
  | cons op rest ih =>
    intro c
    rw [runOps_cons]
    have h1 := runOp_message_id c op
    have h2 := ih (runOp c op).1
    constructor
    · show (runOps (runOp c op).1 rest).1.message_id = _
      rw [h2.1, h1.1]
      simp [List.length_cons]
      omega
    · show idsOf ((runOp c op).2 ++ (runOps (runOp c op).1 rest).2) = _
      rw [idsOf_append, h1.2, h2.2, h1.1]
      rw [List.length_cons, List.range'_succ]
      rfl

/-- C9: the message-id counter of a fresh client is 0; across every
sequence of operations the ids attached to successive requests are exactly
1, 2, 3, … (each strictly greater than the previous), and the counter is
never reset: after `k` id-carrying requests it equals `k`. -/
theorem C9_message_id_monotone (cmd : String) (ops : List ClientOp) :
    (mkClient cmd).message_id = 0
    ∧ idsOf (runOps (mkClient cmd) ops).2 = List.range' 1 ops.length
    ∧ (idsOf (runOps (mkClient cmd) ops).2).Pairwise (· < ·)
    ∧ (runOps (mkClient cmd) ops).1.message_id = ops.length := by
  have h := runOps_spec ops (mkClient cmd)
  have hr : idsOf (runOps (mkClient cmd) ops).2 = List.range' 1 ops.length := by
    simpa [mkClient] using h.2
  refine ⟨rfl, hr, ?_, by simpa [mkClient] using h.1⟩
  rw [hr]
  exact List.pairwise_lt_range' 1 ops.length 1 (by omega)

/-!  ## C10: server-id synthesis -/

theorem md5HexChars_length (msg : List Nat) : (md5HexChars msg).length = 32 := rfl

theorem hexDigit_hex (n : Nat) (h : n < 16) : isHexChar (hexDigit n) = true := by
  interval_cases n <;> rfl

theorem md5HexChars_hex (msg : List Nat) :
    ∀ c ∈ md5HexChars msg, isHexChar c = true := by
  intro c hc
  unfold md5HexChars at hc
  obtain ⟨l, hl, hcl⟩ := List.mem_join.mp hc
  obtain ⟨b, _, hb⟩ := List.mem_map.mp hl
  subst hb
  simp only [byteHex, List.mem_cons, List.not_mem_nil, or_false] at hcl
  rcases hcl with rfl | rfl
  · exact hexDigit_hex _ (Nat.mod_lt _ (by omega))
  · exact hexDigit_hex _ (Nat.mod_lt _ (by omega))

/-- MD5 reference vector: the empty message. -/
theorem md5Hexdigest_empty :
    md5Hexdigest [] = "d41d8cd98f00b204e9800998ecf8427e" := by decide

/-- MD5 reference vector: `"abc"`. -/
theorem md5Hexdigest_abc :
    md5Hexdigest (strBytes "abc") = "900150983cd24fb0d6963f7d28e17f72" := by decide

/-- C10: the synthesized server id is the first 12 hexadecimal characters
of the MD5 digest of the UTF-8 bytes of the command string: it is a
deterministic function of the string, always exactly 12 characters long,
and every character is a lower-case hex digit. -/
theorem C10_server_id (s t : String) :
    get_server_id s = String.mk ((md5HexChars (strBytes s)).take 12)
    ∧ (s = t → get_server_id s = get_server_id t)
    ∧ (get_server_id s).length = 12
    ∧ ∀ c ∈ (get_server_id s).data, isHexChar c = true := by
  refine ⟨rfl, fun h => by rw [h], ?_, ?_⟩
  · show ((md5HexChars (strBytes s)).take 12).length = 12
    rw [List.length_take, md5HexChars_length]
    decide
  · intro c hc
    have hc2 : c ∈ (md5HexChars (strBytes s)).take 12 := hc
    exact md5HexChars_hex (strBytes s) c (List.take_subset 12 _ hc2)

/-- Witness for C10: the theorem at the command string `"abc"`. -/
theorem C10_witness :
    get_server_id "abc" = get_server_id "abc"
    ∧ (get_server_id "abc").length = 12 := by
  have h := C10_server_id "abc" "abc"
  exact ⟨h.2.1 rfl, h.2.2.1⟩
